import Mathlib

/-!
Shallow embedding of the ataritron 6502 fetch/decode core
(`src/memory.rs`, `src/cpu.rs`, `src/cpu/instructions.rs`, `src/cpu/errors.rs`).

Modelling conventions:
* Machine integers (`u8`, `u16`, `u32`) are `Nat`s; theorems carry explicit
  range hypotheses where a claim depends on them.
* Rust's arithmetic on `u16` is overflow-checked (the crate's own test suite
  relies on this: `tests::panics_on_invalid_word_read` asserts that
  `load_little_endian_u16(0xffff)` panics on the `addr + 1` overflow).  Every
  `u16` addition / subtraction in the source is therefore modelled with an
  explicit bound check, and a panic (overflow, `unwrap`, `expect`) is
  modelled as `none` in an outer `Option` layer, while a returned
  `Result::Err` is `Except.error` inside it.
* `Instruction` is embedded as `Cpu::fetch` builds it
  (fields `operation`, `addressing`, `cycle_count`); the `Operations` tag set
  is the one the decode table in `cpu.rs` uses.
-/

/-- `OutOfRangeError { value, min, max }` from `src/memory.rs`. -/
structure OutOfRangeError where
  value : Nat
  min : Nat
  max : Nat
deriving DecidableEq, Repr

/-- `CpuError` from `src/cpu/errors.rs` (the source spells the first
variant `InvalidAddressModeDerefenced`). -/
inductive CpuError where
  | InvalidAddressModeDerefenced : CpuError
  | MemoryBoundsError : OutOfRangeError → CpuError
deriving DecidableEq, Repr

/-- `Memory { data, size }` from `src/memory.rs`: a flat byte store. -/
structure Memory where
  data : List Nat
  size : Nat
deriving DecidableEq, Repr

/-- `Memory::address_in_bounds(addr, size)`: `(addr as u32) < size`. -/
def Memory.address_in_bounds (addr size : Nat) : Bool :=
  addr < size

/-- `Memory::new(size)`: fails unless `13824 <= size <= 0xffff + 1`,
otherwise allocates `size` zero bytes. -/
def Memory.new (size : Nat) : Except OutOfRangeError Memory :=
  if 13824 ≤ size ∧ size ≤ 0xffff + 1 then
    .ok { data := List.replicate size 0x00, size := size }
  else
    .error { value := size, min := 13824, max := 0xffff + 1 }

/-- `Memory::load(addr)`: bounds-checked read of `data[addr]`. -/
def Memory.load (m : Memory) (addr : Nat) : Except OutOfRangeError Nat :=
  if Memory.address_in_bounds addr m.size then
    .ok (m.data.getD addr 0)
  else
    .error { value := addr, min := 0x0, max := m.size - 1 }

/-- `Memory::store(addr, byte)`: bounds-checked write of `data[addr]`. -/
def Memory.store (m : Memory) (addr byte : Nat) : Except OutOfRangeError Memory :=
  if Memory.address_in_bounds addr m.size then
    .ok { m with data := m.data.set addr byte }
  else
    .error { value := addr, min := 0x0, max := m.size - 1 }

/-- `Addressing` from `src/cpu/instructions.rs`: the ten addressing modes,
payloads already read from memory at decode time. -/
inductive Addressing where
  | Implied : Addressing
  | Immediate : Nat → Addressing
  | Absolute : Nat → Addressing
  | Zeropage : Nat → Addressing
  | IndexedAbsolute : Nat → Nat → Addressing
  | IndexedZeropage : Nat → Nat → Addressing
  | Indirect : Nat → Addressing
  | PreindexedIndirect : Nat → Nat → Addressing
  | PostindexedIndirect : Nat → Nat → Addressing
  | RelativeAddress : Nat → Addressing
deriving DecidableEq, Repr

/-- `Operations`: the mnemonic-level tag set as used by the decode table in
`src/cpu.rs` (the stale enum in `instructions.rs` lacks `LogicalShiftRight`,
which `cpu.rs` constructs for opcode `0x4a`). -/
inductive Operations where
  | LoadAccumulator | LoadX | LoadY
  | StoreAccumulator | StoreX | StoreY
  | TransferAccumulatorToX | TransferAccumulatorToY | TransferStackPointerToX
  | TransferXToAccumulator | TransferXToStackPointer | TransferYToAccumulator
  | PushAccumulator | PushStatusRegister | PullAccumulator | PullStatusRegister
  | DecrementMemory | DecrementX | DecrementY
  | IncrementMemory | IncrementX | IncrementY
  | AddWithCarry | SubtractWithCarry
  | AndWithAccumulator | ExclusiveOrWithAccumulator | InclusiveOrWithAccumulator
  | ArithmeticShiftLeft | LogicalShiftRight | RotateLeft | RotateRight
  | ClearCarry | ClearDecimal | ClearInterruptDisable | ClearOverflow
  | SetCarry | SetDecimal | SetInterruptDisable
  | CompareWithAccumulator | CompareWithX | CompareWithY
  | BranchOnCarryClear | BranchOnCarrySet | BranchOnEqual | BranchOnMinus
  | BranchOnNotEqual | BranchOnPlus | BranchOnOverflowClear | BranchOnOverflowSet
  | Jump | JumpSubroutine | ReturnFromSubroutine
  | SoftwareInterrupt | ReturnFromInterrupt
  | BitTest | NoOperation
deriving DecidableEq, Repr

/-- `Instruction` as built by `Cpu::fetch` in `src/cpu.rs`:
`{ operation, addressing, cycle_count }`. -/
structure Instruction where
  operation : Operations
  addressing : Addressing
  cycle_count : Nat
deriving DecidableEq, Repr

/-- The `Cpu` register file from `src/cpu.rs`. -/
structure Cpu where
  pc : Nat
  a : Nat
  x : Nat
  y : Nat
  sp : Nat
  sr : Nat
  memory : Memory
  cycles_busy : Nat
deriving DecidableEq, Repr

/-- `Cpu::new(mem)`: `sp = 0xff`, `pc = 0x1000`, other registers zero. -/
def Cpu.new (mem : Memory) : Cpu :=
  { sp := 0xff, pc := 0x1000, a := 0, x := 0, y := 0, sr := 0,
    memory := mem, cycles_busy := 0 }

/-- `Cpu::load_little_endian_u16(addr)`: low byte at `addr`, high byte at
`addr + 1`, composed `(high << 8) | low`.  The `u16` increment `addr + 1`
is overflow-checked: at `addr = 0xffff` it panics (`none`). -/
def Cpu.load_little_endian_u16 (c : Cpu) (addr : Nat) :
    Option (Except OutOfRangeError Nat) :=
  match c.memory.load addr with
  | .error e => some (.error e)
  | .ok low_bytes =>
    if addr + 1 ≤ 0xffff then
      match c.memory.load (addr + 1) with
      | .error e => some (.error e)
      | .ok high_bytes => some (.ok ((high_bytes <<< 8) ||| low_bytes))
    else none

/-- `Cpu::reset()`: reloads `pc` from the reset vector at `0xfffc`, resets
`sp`, `a`, `x`, `sr` and sets `cycles_busy := 1`.  The source reads the
vector with `.expect(..)`, so a failed read aborts (`none`); `y` is left
unchanged. -/
def Cpu.reset (c : Cpu) : Option Cpu :=
  match c.load_little_endian_u16 0xfffc with
  | some (.ok v) =>
    some { c with sp := 0xff, pc := v, a := 0, x := 0, sr := 0, cycles_busy := 1 }
  | some (.error _) => none
  | none => none

/-- `Cpu::get_effective_address(addressing)` from `src/cpu.rs` lines 69-90.
All `u16` additions are overflow-checked and the subtraction in the
`RelativeAddress` branch is underflow-checked (a violation panics, `none`);
the `unwrap` in the `PostindexedIndirect` branch panics on a failed
zero-page word read. -/
def Cpu.get_effective_address (c : Cpu) (addressing : Addressing) :
    Option (Except CpuError Nat) :=
  match addressing with
  | .Absolute addr => some (.ok addr)
  | .Zeropage low_nibble => some (.ok (0x0000 ||| low_nibble))
  | .IndexedAbsolute base offset =>
    if base + offset ≤ 0xffff then some (.ok (base + offset)) else none
  | .IndexedZeropage low_nibble offset =>
    if (0x0000 ||| low_nibble) + offset ≤ 0xffff then
      some (.ok ((0x0000 ||| low_nibble) + offset))
    else none
  | .PreindexedIndirect low_nibble_base offset =>
    if (0x0000 ||| low_nibble_base) + offset ≤ 0xffff then
      some (.ok ((0x0000 ||| low_nibble_base) + offset))
    else none
  | .PostindexedIndirect low_nibble_base offset =>
    match c.load_little_endian_u16 (0x0000 ||| low_nibble_base) with
    | some (.ok base_addr) =>
      if base_addr + offset ≤ 0xffff then some (.ok (base_addr + offset)) else none
    | some (.error _) => none
    | none => none
  | .Indirect addr =>
    match c.load_little_endian_u16 addr with
    | some (.ok v) => some (.ok v)
    | some (.error e) => some (.error (CpuError.MemoryBoundsError e))
    | none => none
  | .RelativeAddress offset =>
    if offset &&& 0x80 ≠ 0 then
      if (offset ^^^ 0xff) + 1 ≤ c.pc then
        some (.ok (c.pc - ((offset ^^^ 0xff) + 1)))
      else none
    else
      if c.pc + offset ≤ 0xffff then some (.ok (c.pc + offset)) else none
  | .Immediate _ => some (.error CpuError.InvalidAddressModeDerefenced)
  | .Implied => some (.error CpuError.InvalidAddressModeDerefenced)

/-- `Cpu::get_operand(addressing)` from `src/cpu.rs` lines 92-112. -/
def Cpu.get_operand (c : Cpu) (addressing : Addressing) :
    Option (Except CpuError Nat) :=
  match addressing with
  | .Immediate value => some (.ok value)
  | .Absolute _ | .Zeropage _ | .IndexedAbsolute _ _ | .IndexedZeropage _ _
  | .PreindexedIndirect _ _ | .PostindexedIndirect _ _ | .RelativeAddress _ =>
    match c.get_effective_address addressing with
    | some (.ok effective_addr) =>
      match c.memory.load effective_addr with
      | .error e => some (.error (CpuError.MemoryBoundsError e))
      | .ok v => some (.ok v)
    | some (.error e) => some (.error e)
    | none => none
  | .Implied => some (.error CpuError.InvalidAddressModeDerefenced)
  | .Indirect _ => some (.error CpuError.InvalidAddressModeDerefenced)

/-- The payload shape of an addressing mode as the decode table of
`Cpu::fetch` uses it: which operand bytes are read after the opcode and
which index register (if any) is attached. -/
inductive AddrSpec where
  | implied
  | immediate | zeropage | zeropageX | zeropageY
  | preindexedX | postindexedY | relative
  | absolute | absoluteX | absoluteY | indirect
deriving DecidableEq, Repr

/-- How many operand bytes an `AddrSpec` reads after the opcode byte. -/
inductive OperandBytes where
  | noBytes | byte | word
deriving DecidableEq, Repr

/-- Operand bytes read by each `AddrSpec`. -/
def AddrSpec.operand : AddrSpec → OperandBytes
  | .implied => .noBytes
  | .immediate | .zeropage | .zeropageX | .zeropageY
  | .preindexedX | .postindexedY | .relative => .byte
  | .absolute | .absoluteX | .absoluteY | .indirect => .word

/-- The `Addressing` value an `AddrSpec` builds from the operand value `v`
(the one-operand-byte modes attach `c.x` / `c.y` where the source does). -/
def AddrSpec.build (spec : AddrSpec) (c : Cpu) (v : Nat) : Addressing :=
  match spec with
  | .implied => .Implied
  | .immediate => .Immediate v
  | .zeropage => .Zeropage v
  | .zeropageX => .IndexedZeropage v c.x
  | .zeropageY => .IndexedZeropage v c.y
  | .preindexedX => .PreindexedIndirect v c.x
  | .postindexedY => .PostindexedIndirect v c.y
  | .relative => .RelativeAddress v
  | .absolute => .Absolute v
  | .absoluteX => .IndexedAbsolute v c.x
  | .absoluteY => .IndexedAbsolute v c.y
  | .indirect => .Indirect v

/-- The static opcode table of `Cpu::fetch` (`src/cpu.rs` lines 119-1328)
as data: opcode byte to (operation, addressing shape, cycle count); one
entry per explicit `match` arm of the source, every other byte falling
through to the `0xea | _` arm (`NoOperation`, implied, 2 cycles). -/
def decode_table (opcode : Nat) : Operations × AddrSpec × Nat :=
  match opcode with
  | 0x00 => (.SoftwareInterrupt, .implied, 7)
  | 0x48 => (.PushAccumulator, .implied, 3)
  | 0x68 => (.PullAccumulator, .implied, 4)
  | 0x28 => (.PullStatusRegister, .implied, 4)
  | 0x09 => (.InclusiveOrWithAccumulator, .immediate, 2)
  | 0x05 => (.InclusiveOrWithAccumulator, .zeropage, 3)
  | 0x15 => (.InclusiveOrWithAccumulator, .zeropageX, 4)
  | 0x0d => (.InclusiveOrWithAccumulator, .absolute, 4)
  | 0x1d => (.InclusiveOrWithAccumulator, .absoluteX, 4)
  | 0x19 => (.InclusiveOrWithAccumulator, .absoluteY, 4)
  | 0x01 => (.InclusiveOrWithAccumulator, .preindexedX, 6)
  | 0x11 => (.InclusiveOrWithAccumulator, .postindexedY, 5)
  | 0x0a => (.ArithmeticShiftLeft, .implied, 2)
  | 0x06 => (.ArithmeticShiftLeft, .zeropage, 5)
  | 0x16 => (.ArithmeticShiftLeft, .zeropageX, 6)
  | 0x0e => (.ArithmeticShiftLeft, .absolute, 6)
  | 0x1e => (.ArithmeticShiftLeft, .absoluteX, 7)
  | 0x08 => (.PushStatusRegister, .implied, 3)
  | 0x10 => (.BranchOnPlus, .relative, 2)
  | 0x18 => (.ClearCarry, .implied, 2)
  | 0x20 => (.JumpSubroutine, .absolute, 6)
  | 0x29 => (.AndWithAccumulator, .immediate, 2)
  | 0x25 => (.AndWithAccumulator, .zeropage, 3)
  | 0x35 => (.AndWithAccumulator, .zeropageX, 4)
  | 0x2d => (.AndWithAccumulator, .absolute, 4)
  | 0x3d => (.AndWithAccumulator, .absoluteX, 4)
  | 0x39 => (.AndWithAccumulator, .absoluteY, 4)
  | 0x21 => (.AndWithAccumulator, .preindexedX, 6)
  | 0x31 => (.AndWithAccumulator, .postindexedY, 5)
  | 0x24 => (.BitTest, .zeropage, 3)
  | 0x2c => (.BitTest, .absolute, 4)
  | 0x2a => (.RotateLeft, .implied, 2)
  | 0x26 => (.RotateLeft, .zeropage, 5)
  | 0x36 => (.RotateLeft, .zeropageX, 6)
  | 0x2e => (.RotateLeft, .absolute, 6)
  | 0x3e => (.RotateLeft, .absoluteX, 7)
  | 0x30 => (.BranchOnMinus, .relative, 2)
  | 0x38 => (.SetCarry, .implied, 2)
  | 0x40 => (.ReturnFromInterrupt, .implied, 6)
  | 0x49 => (.ExclusiveOrWithAccumulator, .immediate, 2)
  | 0x45 => (.ExclusiveOrWithAccumulator, .zeropage, 3)
  | 0x55 => (.ExclusiveOrWithAccumulator, .zeropageX, 4)
  | 0x4d => (.ExclusiveOrWithAccumulator, .absolute, 4)
  | 0x5d => (.ExclusiveOrWithAccumulator, .absoluteX, 4)
  | 0x59 => (.ExclusiveOrWithAccumulator, .absoluteY, 4)
  | 0x41 => (.ExclusiveOrWithAccumulator, .preindexedX, 6)
  | 0x51 => (.ExclusiveOrWithAccumulator, .postindexedY, 5)
  | 0x4a => (.LogicalShiftRight, .implied, 2)
  | 0x46 => (.LogicalShiftRight, .zeropage, 5)
  | 0x56 => (.LogicalShiftRight, .zeropageX, 6)
  | 0x4e => (.LogicalShiftRight, .absolute, 6)
  | 0x5e => (.LogicalShiftRight, .absoluteX, 7)
  | 0x4c => (.Jump, .absolute, 3)
  | 0x6c => (.Jump, .indirect, 5)
  | 0x50 => (.BranchOnOverflowClear, .relative, 2)
  | 0x58 => (.ClearInterruptDisable, .implied, 2)
  | 0x60 => (.ReturnFromSubroutine, .implied, 6)
  | 0x69 => (.AddWithCarry, .immediate, 2)
  | 0x65 => (.AddWithCarry, .zeropage, 3)
  | 0x75 => (.AddWithCarry, .zeropageX, 4)
  | 0x6d => (.AddWithCarry, .absolute, 4)
  | 0x7d => (.AddWithCarry, .absoluteX, 4)
  | 0x79 => (.AddWithCarry, .absoluteY, 4)
  | 0x61 => (.AddWithCarry, .preindexedX, 6)
  | 0x71 => (.AddWithCarry, .postindexedY, 5)
  | 0x6a => (.RotateRight, .implied, 2)
  | 0x66 => (.RotateRight, .zeropage, 5)
  | 0x76 => (.RotateRight, .zeropageX, 6)
  | 0x6e => (.RotateRight, .absolute, 6)
  | 0x7e => (.RotateRight, .absoluteX, 7)
  | 0x70 => (.BranchOnOverflowSet, .relative, 2)
  | 0x78 => (.SetInterruptDisable, .implied, 2)
  | 0x85 => (.StoreAccumulator, .zeropage, 3)
  | 0x95 => (.StoreAccumulator, .zeropageX, 4)
  | 0x8d => (.StoreAccumulator, .absolute, 4)
  | 0x9d => (.StoreAccumulator, .absoluteX, 5)
  | 0x99 => (.StoreAccumulator, .absoluteY, 5)
  | 0x81 => (.StoreAccumulator, .preindexedX, 6)
  | 0x91 => (.StoreAccumulator, .postindexedY, 6)
  | 0x84 => (.StoreY, .zeropage, 3)
  | 0x94 => (.StoreY, .zeropageX, 4)
  | 0x8c => (.StoreY, .absolute, 4)
  | 0x86 => (.StoreX, .zeropage, 3)
  | 0x96 => (.StoreX, .zeropageY, 4)
  | 0x8e => (.StoreX, .absolute, 4)
  | 0x88 => (.DecrementY, .implied, 2)
  | 0x8a => (.TransferXToAccumulator, .implied, 2)
  | 0x90 => (.BranchOnCarryClear, .relative, 2)
  | 0x98 => (.TransferYToAccumulator, .implied, 2)
  | 0x9a => (.TransferXToStackPointer, .implied, 2)
  | 0xa0 => (.LoadY, .immediate, 2)
  | 0xa4 => (.LoadY, .zeropage, 3)
  | 0xb4 => (.LoadY, .zeropageX, 4)
  | 0xac => (.LoadY, .absolute, 4)
  | 0xbc => (.LoadY, .absoluteX, 4)
  | 0xa2 => (.LoadX, .immediate, 2)
  | 0xa6 => (.LoadX, .zeropage, 3)
  | 0xb6 => (.LoadX, .zeropageY, 4)
  | 0xae => (.LoadX, .absolute, 4)
  | 0xbe => (.LoadX, .absoluteY, 4)
  | 0xa9 => (.LoadAccumulator, .immediate, 2)
  | 0xa5 => (.LoadAccumulator, .zeropage, 3)
  | 0xb5 => (.LoadAccumulator, .zeropageX, 4)
  | 0xad => (.LoadAccumulator, .absolute, 4)
  | 0xbd => (.LoadAccumulator, .absoluteX, 4)
  | 0xb9 => (.LoadAccumulator, .absoluteY, 4)
  | 0xa1 => (.LoadAccumulator, .preindexedX, 6)
  | 0xb1 => (.LoadAccumulator, .postindexedY, 5)
  | 0xa8 => (.TransferAccumulatorToY, .implied, 2)
  | 0xaa => (.TransferAccumulatorToX, .implied, 2)
  | 0xb0 => (.BranchOnCarrySet, .relative, 2)
  | 0xb8 => (.ClearOverflow, .implied, 2)
  | 0xba => (.TransferStackPointerToX, .implied, 2)
  | 0xc0 => (.CompareWithY, .immediate, 2)
  | 0xc4 => (.CompareWithY, .zeropage, 3)
  | 0xcc => (.CompareWithY, .absolute, 4)
  | 0xc9 => (.CompareWithAccumulator, .immediate, 2)
  | 0xc5 => (.CompareWithAccumulator, .zeropage, 3)
  | 0xd5 => (.CompareWithAccumulator, .zeropageX, 4)
  | 0xcd => (.CompareWithAccumulator, .absolute, 4)
  | 0xdd => (.CompareWithAccumulator, .absoluteX, 4)
  | 0xd9 => (.CompareWithAccumulator, .absoluteY, 4)
  | 0xc1 => (.CompareWithAccumulator, .preindexedX, 6)
  | 0xd1 => (.CompareWithAccumulator, .postindexedY, 5)
  | 0xc6 => (.DecrementMemory, .zeropage, 5)
  | 0xd6 => (.DecrementMemory, .zeropageX, 6)
  | 0xce => (.DecrementMemory, .absolute, 6)
  | 0xde => (.DecrementMemory, .absoluteX, 7)
  | 0xc8 => (.IncrementY, .implied, 2)
  | 0xca => (.DecrementX, .implied, 2)
  | 0xd0 => (.BranchOnNotEqual, .relative, 2)
  | 0xd8 => (.ClearDecimal, .implied, 2)
  | 0xe0 => (.CompareWithX, .immediate, 2)
  | 0xe4 => (.CompareWithX, .zeropage, 3)
  | 0xec => (.CompareWithX, .absolute, 4)
  | 0xe9 => (.SubtractWithCarry, .immediate, 2)
  | 0xe5 => (.SubtractWithCarry, .zeropage, 3)
  | 0xf5 => (.SubtractWithCarry, .zeropageX, 4)
  | 0xed => (.SubtractWithCarry, .absolute, 4)
  | 0xfd => (.SubtractWithCarry, .absoluteX, 4)
  | 0xf9 => (.SubtractWithCarry, .absoluteY, 4)
  | 0xe1 => (.SubtractWithCarry, .preindexedX, 6)
  | 0xf1 => (.SubtractWithCarry, .postindexedY, 5)
  | 0xe6 => (.IncrementMemory, .zeropage, 5)
  | 0xf6 => (.IncrementMemory, .zeropageX, 6)
  | 0xee => (.IncrementMemory, .absolute, 6)
  | 0xfe => (.IncrementMemory, .absoluteX, 7)
  | 0xe8 => (.IncrementX, .implied, 2)
  | 0xf0 => (.BranchOnEqual, .relative, 2)
  | 0xf8 => (.SetDecimal, .implied, 2)
  | 0xea => (.NoOperation, .implied, 2)
  | _ => (.NoOperation, .implied, 2)

/-- The opcode dispatch inside `Cpu::fetch`: looks the opcode up in
`decode_table`, reads the operand bytes the entry's `AddrSpec` requires
(at `pc + 1`, exactly as each source arm does), and yields the built
`Instruction` together with `instruction_size`.  The `u16` increment
`pc + 1` is overflow-checked. -/
def Cpu.fetch_decode (c : Cpu) (opcode : Nat) :
    Option (Except OutOfRangeError (Instruction × Nat)) :=
  match decode_table opcode with
  | (oper, spec, cyc) =>
    match spec.operand with
    | .noBytes =>
      some (.ok ({ operation := oper, addressing := spec.build c 0, cycle_count := cyc }, 1))
    | .byte =>
      if c.pc + 1 ≤ 0xffff then
        match c.memory.load (c.pc + 1) with
        | .error e => some (.error e)
        | .ok v =>
          some (.ok ({ operation := oper, addressing := spec.build c v, cycle_count := cyc }, 2))
      else none
    | .word =>
      if c.pc + 1 ≤ 0xffff then
        match c.load_little_endian_u16 (c.pc + 1) with
        | none => none
        | some (.error e) => some (.error e)
        | some (.ok v) =>
          some (.ok ({ operation := oper, addressing := spec.build c v, cycle_count := cyc }, 3))
      else none

/-- `Cpu::fetch()`: reads the opcode at `pc`, decodes it, and advances `pc`
by `instruction_size` (the final `self.pc += instruction_size` is
overflow-checked `u16` addition). -/
def Cpu.fetch (c : Cpu) : Option (Except OutOfRangeError (Instruction × Cpu)) :=
  match c.memory.load c.pc with
  | .error e => some (.error e)
  | .ok opcode =>
    match c.fetch_decode opcode with
    | some (.ok (instruction, instruction_size)) =>
      if c.pc + instruction_size ≤ 0xffff then
        some (.ok (instruction, { c with pc := c.pc + instruction_size }))
      else none
    | some (.error e) => some (.error e)
    | none => none

/-- The instruction byte length dictated by an addressing mode: 1 for
`Implied`, 2 for the one-operand-byte modes, 3 for the modes carrying a
16-bit word. -/
def instructionLength : Addressing → Nat
  | .Implied => 1
  | .Immediate _ => 2
  | .Zeropage _ => 2
  | .IndexedZeropage _ _ => 2
  | .PreindexedIndirect _ _ => 2
  | .PostindexedIndirect _ _ => 2
  | .RelativeAddress _ => 2
  | .Absolute _ => 3
  | .IndexedAbsolute _ _ => 3
  | .Indirect _ => 3

/-- The opcode bytes with an explicit arm in the decode table of
`Cpu::fetch` (`0xea`, the documented NOP, shares the default arm). -/
def documented_opcodes : List Nat :=
  [0x00, 0x48, 0x68, 0x28, 0x09, 0x05, 0x15, 0x0d, 0x1d, 0x19, 0x01, 0x11, 0x0a, 0x06, 0x16, 0x0e, 0x1e, 0x08, 0x10, 0x18, 0x20, 0x29, 0x25, 0x35, 0x2d, 0x3d, 0x39, 0x21, 0x31, 0x24, 0x2c, 0x2a, 0x26, 0x36, 0x2e, 0x3e, 0x30, 0x38, 0x40, 0x49, 0x45, 0x55, 0x4d, 0x5d, 0x59, 0x41, 0x51, 0x4a, 0x46, 0x56, 0x4e, 0x5e, 0x4c, 0x6c, 0x50, 0x58, 0x60, 0x69, 0x65, 0x75, 0x6d, 0x7d, 0x79, 0x61, 0x71, 0x6a, 0x66, 0x76, 0x6e, 0x7e, 0x70, 0x78, 0x85, 0x95, 0x8d, 0x9d, 0x99, 0x81, 0x91, 0x84, 0x94, 0x8c, 0x86, 0x96, 0x8e, 0x88, 0x8a, 0x90, 0x98, 0x9a, 0xa0, 0xa4, 0xb4, 0xac, 0xbc, 0xa2, 0xa6, 0xb6, 0xae, 0xbe, 0xa9, 0xa5, 0xb5, 0xad, 0xbd, 0xb9, 0xa1, 0xb1, 0xa8, 0xaa, 0xb0, 0xb8, 0xba, 0xc0, 0xc4, 0xcc, 0xc9, 0xc5, 0xd5, 0xcd, 0xdd, 0xd9, 0xc1, 0xd1, 0xc6, 0xd6, 0xce, 0xde, 0xc8, 0xca, 0xd0, 0xd8, 0xe0, 0xe4, 0xec, 0xe9, 0xe5, 0xf5, 0xed, 0xfd, 0xf9, 0xe1, 0xf1, 0xe6, 0xf6, 0xee, 0xfe, 0xe8, 0xf0, 0xf8, 0xea]

/-! Concrete machine fixtures used by witnesses and counterexamples. -/

/-- A fresh 16 KiB memory, exactly the value `Memory.new 16384` returns. -/
def mem16k : Memory := { data := List.replicate 16384 0x00, size := 16384 }

/-- A CPU over `mem16k`. -/
def cpu16k : Cpu := Cpu.new mem16k

/-- A fresh full 64 KiB memory, the value `Memory.new 65536` returns. -/
def mem64k : Memory := { data := List.replicate 65536 0x00, size := 65536 }

/-- A CPU over `mem64k`. -/
def cpuFull : Cpu := Cpu.new mem64k

deriving instance DecidableEq for Except

/-- A one-byte memory holding `0x00` (the `Cpu` functions are total over any
`Memory` value, so small stores keep witness evaluation cheap). -/
def memUnit : Memory := { data := [0x00], size := 1 }

/-- A CPU over `memUnit`, program counter at 0. -/
def cpuUnit : Cpu := { Cpu.new memUnit with pc := 0 }

/-- A full 64 KiB memory holding the undocumented opcode `0x02` at
`0xffff`. -/
def memTop : Memory :=
  { data := (List.replicate 65536 0x00).set 0xffff 0x02, size := 65536 }

/-- A CPU over `memTop` with the program counter at the last address. -/
def cpuTop : Cpu := { Cpu.new memTop with pc := 0xffff }

/-- A one-byte memory holding the undocumented opcode `0x02`. -/
def memByte : Memory := { data := [0x02], size := 1 }

/-- A CPU over `memByte`, program counter at 0. -/
def cpuByte : Cpu := { Cpu.new memByte with pc := 0 }

/-- `(List.replicate n a).getD i d = a` for `i < n`. -/
theorem list_getD_replicate (a d : Nat) :
    ∀ (n i : Nat), i < n → (List.replicate n a).getD i d = a := by
  intro n
  induction n with
  | zero => intro i h; omega
  | succ k ih =>
    intro i h
    cases i with
    | zero => rfl
    | succ j => exact ih j (by omega)

/-- `(l.set i b).getD i d = b` for `i < l.length`. -/
theorem list_getD_set_eq (b d : Nat) :
    ∀ (l : List Nat) (i : Nat), i < l.length → (l.set i b).getD i d = b := by
  intro l
  induction l with
  | nil => intro i h; simp at h
  | cons hd tl ih =>
    intro i h
    cases i with
    | zero => rfl
    | succ j => exact ih j (by simpa using h)

/-- Setting index `i` does not change `getD` at `j ≠ i`. -/
theorem list_getD_set_ne (b d : Nat) :
    ∀ (l : List Nat) (i j : Nat), i ≠ j → (l.set i b).getD j d = l.getD j d := by
  intro l
  induction l with
  | nil => intro i j _; simp
  | cons hd tl ih =>
    intro i j hne
    cases i with
    | zero =>
      cases j with
      | zero => exact absurd rfl hne
      | succ _ => rfl
    | succ i' =>
      cases j with
      | zero => rfl
      | succ j' => exact ih i' j' (by omega)

/-- In-bounds `Memory.load` returns the stored byte. -/
theorem Memory_load_ok (m : Memory) (addr : Nat) (h : addr < m.size) :
    m.load addr = .ok (m.data.getD addr 0) := by
  unfold Memory.load Memory.address_in_bounds
  simp [h]

/-- Out-of-bounds `Memory.load` returns the out-of-range error. -/
theorem Memory_load_error (m : Memory) (addr : Nat) (h : ¬ addr < m.size) :
    m.load addr = .error { value := addr, min := 0, max := m.size - 1 } := by
  unfold Memory.load Memory.address_in_bounds
  simp [h]


/-- `AddrSpec.build` always produces an addressing mode whose dictated
instruction length matches the operand bytes the spec reads. -/
theorem instructionLength_build (spec : AddrSpec) (c : Cpu) (v : Nat) :
    instructionLength (spec.build c v) =
      match spec.operand with
      | .noBytes => 1
      | .byte => 2
      | .word => 3 := by
  cases spec <;> rfl

/-- An `AddrSpec` reading no operand bytes builds a length-1 mode. -/
theorem build_length_one (spec : AddrSpec) (c : Cpu) (v : Nat)
    (h : spec.operand = .noBytes) : instructionLength (spec.build c v) = 1 := by
  cases spec <;> first | rfl | exact absurd h (by decide)

/-- An `AddrSpec` reading one operand byte builds a length-2 mode. -/
theorem build_length_two (spec : AddrSpec) (c : Cpu) (v : Nat)
    (h : spec.operand = .byte) : instructionLength (spec.build c v) = 2 := by
  cases spec <;> first | rfl | exact absurd h (by decide)

/-- An `AddrSpec` reading an operand word builds a length-3 mode. -/
theorem build_length_three (spec : AddrSpec) (c : Cpu) (v : Nat)
    (h : spec.operand = .word) : instructionLength (spec.build c v) = 3 := by
  cases spec <;> first | rfl | exact absurd h (by decide)

/-- Every successful `fetch_decode` result pairs an instruction with exactly
the byte length its addressing mode dictates. -/
theorem fetch_decode_size_eq (c : Cpu) (opcode : Nat)
    (instr : Instruction) (size : Nat)
    (h : c.fetch_decode opcode = some (.ok (instr, size))) :
    size = instructionLength instr.addressing := by
  unfold Cpu.fetch_decode at h
  rcases hdt : decode_table opcode with ⟨oper, spec, cyc⟩
  rw [hdt] at h
  dsimp only at h
  split at h
  all_goals try split at h
  all_goals try split at h
  all_goals
    first
      | exact Option.noConfusion h
      | (injection h with h1; injection h1 with h2; injection h2 with h3 h4
         subst h3; subst h4
         first
           | exact (build_length_one spec c _ (by assumption)).symm
           | exact (build_length_two spec c _ (by assumption)).symm
           | exact (build_length_three spec c _ (by assumption)).symm)
      | simp at h

/-- C2: whenever `fetch` returns `Ok`, the new `pc` equals the old `pc`
plus the fetched instruction's byte length (1, 2 or 3, dictated by its
addressing mode), modulo the 16-bit address space. -/
theorem C2_fetch_advances_pc (c : Cpu) (instr : Instruction) (c' : Cpu)
    (h : c.fetch = some (.ok (instr, c'))) :
    c'.pc = (c.pc + instructionLength instr.addressing) % 65536 ∧
    (instructionLength instr.addressing = 1 ∨ instructionLength instr.addressing = 2 ∨
      instructionLength instr.addressing = 3) := by
  unfold Cpu.fetch at h
  split at h
  · simp at h
  · split at h
    · rename_i instruction instruction_size heq
      split at h
      · rename_i hle
        injection h with h1
        injection h1 with h2
        injection h2 with h3 h4
        subst h3; subst h4
        have hsz := fetch_decode_size_eq c _ _ _ heq
        constructor
        · show c.pc + instruction_size = (c.pc + instructionLength instruction.addressing) % 65536
          rw [← hsz]
          omega
        · cases hA : instruction.addressing <;> simp [instructionLength]
      · exact Option.noConfusion h
    · simp at h
    · exact Option.noConfusion h

/-- Witness for C2 at a concrete machine: fetching the `BRK` at `pc = 0`
advances `pc` by `instructionLength Implied = 1`. -/
theorem C2_witness :
    ({ cpuUnit with pc := 0 + 1 } : Cpu).pc =
      (cpuUnit.pc + instructionLength (Addressing.Implied)) % 65536 ∧
    (instructionLength (Addressing.Implied) = 1 ∨
      instructionLength (Addressing.Implied) = 2 ∨
      instructionLength (Addressing.Implied) = 3) :=
  C2_fetch_advances_pc cpuUnit
    { operation := .SoftwareInterrupt, addressing := .Implied, cycle_count := 7 }
    { cpuUnit with pc := 0 + 1 } (by rfl)

set_option maxRecDepth 8000 in
/-- Every opcode byte outside the documented table decodes to the default
entry `NoOperation` / implied / 2 cycles. -/
theorem decode_table_undocumented (b : Nat) (hb : b < 256)
    (hmem : b ∉ documented_opcodes) :
    decode_table b = (.NoOperation, .implied, 2) := by
  have hforall : ∀ x < 256, x ∉ documented_opcodes →
      decode_table x = (.NoOperation, .implied, 2) := by decide
  exact hforall b hb hmem

/-- C3 (amended): an undocumented opcode byte at `pc` makes `fetch` return
`{NoOperation, Implied, cycle_count 2}` and advance `pc` by exactly 1 —
provided the increment `pc + 1` does not overflow `u16`; at `pc = 0xffff`
the final `self.pc += instruction_size` overflows instead and `fetch`
panics. -/
theorem C3_undocumented_fetch (c : Cpu) (b : Nat) (hb : b < 256)
    (hmem : b ∉ documented_opcodes)
    (hload : c.memory.load c.pc = .ok b) (hpc : c.pc + 1 ≤ 0xffff) :
    c.fetch = some (.ok
      ({ operation := .NoOperation, addressing := .Implied, cycle_count := 2 },
        { c with pc := c.pc + 1 })) := by
  have hdt := decode_table_undocumented b hb hmem
  have hfd : c.fetch_decode b =
      some (.ok ({ operation := .NoOperation, addressing := .Implied, cycle_count := 2 }, 1)) := by
    unfold Cpu.fetch_decode
    rw [hdt]
    rfl
  unfold Cpu.fetch
  rw [hload]
  dsimp only
  rw [hfd]
  dsimp only
  rw [if_pos hpc]

/-- Counterexample to C3 as stated: with the undocumented byte `0x02` at
`pc = 0xffff` over a full 64 KiB memory, `fetch` does not return `Ok` at
all — the `pc` increment overflows `u16` and the fetch panics (`none`). -/
theorem C3_counterexample :
    cpuTop.memory.load cpuTop.pc = .ok 0x02 ∧
    (0x02 : Nat) ∉ documented_opcodes ∧
    cpuTop.fetch = none := by
  have hpc : cpuTop.pc = 0xffff := rfl
  have hload : cpuTop.memory.load 0xffff = .ok 0x02 := by
    rw [Memory_load_ok cpuTop.memory 0xffff (by decide)]
    show Except.ok (((List.replicate 65536 0x00).set 0xffff 0x02).getD 0xffff 0) = _
    rw [list_getD_set_eq 0x02 0 (List.replicate 65536 0x00) 0xffff
      (by rw [List.length_replicate]; decide)]
  refine ⟨by rw [hpc]; exact hload, by decide, ?_⟩
  unfold Cpu.fetch
  rw [hpc, hload]
  dsimp only
  rw [show cpuTop.fetch_decode 0x02 =
      some (.ok ({ operation := .NoOperation, addressing := .Implied, cycle_count := 2 }, 1))
    from rfl]
  dsimp only
  rw [if_neg (by decide)]

/-- Witness for the amended C3: fetching the undocumented byte `0x02` at
`pc = 0` yields the 2-cycle implied no-op and `pc = 1`. -/
theorem C3_witness :
    cpuByte.fetch = some (.ok
      ({ operation := .NoOperation, addressing := .Implied, cycle_count := 2 },
        { cpuByte with pc := cpuByte.pc + 1 })) :=
  C3_undocumented_fetch cpuByte 0x02 (by decide) (by decide) (by rfl) (by decide)

/-- C1 (amended): `get_effective_address` fails with
`InvalidAddressModeDerefenced` on `Immediate`/`Implied`, returns `n` for
`Zeropage n`, returns `base + off` for `IndexedAbsolute` when the 16-bit
sum does not overflow (and panics when it does), and for
`RelativeAddress offset` returns `pc - (~offset + 1)` when bit 7 is set
(panicking when the subtraction underflows), else `pc + offset`
(panicking when that sum overflows `u16`). -/
theorem C1_get_effective_address (c : Cpu) :
    (∀ v, c.get_effective_address (.Immediate v) =
      some (.error CpuError.InvalidAddressModeDerefenced)) ∧
    c.get_effective_address .Implied =
      some (.error CpuError.InvalidAddressModeDerefenced) ∧
    (∀ n, c.get_effective_address (.Zeropage n) = some (.ok n)) ∧
    (∀ base off, base + off ≤ 0xffff →
      c.get_effective_address (.IndexedAbsolute base off) = some (.ok (base + off))) ∧
    (∀ base off, 0xffff < base + off →
      c.get_effective_address (.IndexedAbsolute base off) = none) ∧
    (∀ off, off &&& 0x80 ≠ 0 → (off ^^^ 0xff) + 1 ≤ c.pc →
      c.get_effective_address (.RelativeAddress off) =
        some (.ok (c.pc - ((off ^^^ 0xff) + 1)))) ∧
    (∀ off, off &&& 0x80 ≠ 0 → c.pc < (off ^^^ 0xff) + 1 →
      c.get_effective_address (.RelativeAddress off) = none) ∧
    (∀ off, off &&& 0x80 = 0 → c.pc + off ≤ 0xffff →
      c.get_effective_address (.RelativeAddress off) = some (.ok (c.pc + off))) ∧
    (∀ off, off &&& 0x80 = 0 → 0xffff < c.pc + off →
      c.get_effective_address (.RelativeAddress off) = none) := by
  refine ⟨fun v => rfl, rfl, fun n => ?_, fun base off h => ?_, fun base off h => ?_,
    fun off h1 h2 => ?_, fun off h1 h2 => ?_, fun off h1 h2 => ?_, fun off h1 h2 => ?_⟩
  · simp only [Cpu.get_effective_address, Nat.zero_or]
  · simp only [Cpu.get_effective_address]
    rw [if_pos h]
  · simp only [Cpu.get_effective_address]
    rw [if_neg (by omega)]
  · simp only [Cpu.get_effective_address]
    rw [if_pos h1, if_pos h2]
  · simp only [Cpu.get_effective_address]
    rw [if_pos h1, if_neg (by omega)]
  · simp only [Cpu.get_effective_address]
    rw [if_neg (by simpa using h1), if_pos h2]
  · simp only [Cpu.get_effective_address]
    rw [if_neg (by simpa using h1), if_neg (by omega)]

/-- Counterexample to C1 as stated: the `RelativeAddress`/`IndexedAbsolute`
arithmetic does not always return a value — at `pc = 0` a negative offset
underflows the subtraction, `0xffff + 0x01` overflows the indexed sum, and
at `pc = 0xffff` the positive branch's `pc + offset` overflows; each case
panics (`none`) instead of returning the claimed `u16` result. -/
theorem C1_counterexample :
    cpuUnit.get_effective_address (.RelativeAddress 0x80) = none ∧
    cpuUnit.get_effective_address (.IndexedAbsolute 0xffff 0x01) = none ∧
    ({ cpuUnit with pc := 0xffff } : Cpu).get_effective_address
      (.RelativeAddress 0x01) = none :=
  ⟨rfl, rfl, rfl⟩

/-- Witness for the amended C1 at `cpu16k` (`pc = 0x1000`): every branch of
the claim evaluated at concrete operands. -/
theorem C1_witness :
    cpu16k.get_effective_address (.Immediate 0x2a) =
      some (.error CpuError.InvalidAddressModeDerefenced) ∧
    cpu16k.get_effective_address .Implied =
      some (.error CpuError.InvalidAddressModeDerefenced) ∧
    cpu16k.get_effective_address (.Zeropage 0x44) = some (.ok 0x44) ∧
    cpu16k.get_effective_address (.IndexedAbsolute 0x2000 0x10) =
      some (.ok (0x2000 + 0x10)) ∧
    cpu16k.get_effective_address (.RelativeAddress 0xfb) =
      some (.ok (cpu16k.pc - ((0xfb ^^^ 0xff) + 1))) ∧
    cpu16k.get_effective_address (.RelativeAddress 0x10) =
      some (.ok (cpu16k.pc + 0x10)) := by
  obtain ⟨h1, h2, h3, h4, _, h6, _, h8, _⟩ := C1_get_effective_address cpu16k
  exact ⟨h1 0x2a, h2, h3 0x44, h4 0x2000 0x10 (by decide),
    h6 0xfb (by decide) (by decide), h8 0x10 (by decide) (by decide)⟩

/-- The 16384-byte memory of scenario A: bytes `[0x00, 0x09, 0x0a]` at
`0x1000`, zero elsewhere. -/
def memA : Memory :=
  { data := (((List.replicate 16384 0x00).set 0x1000 0x00).set 0x1001 0x09).set 0x1002 0x0a,
    size := 16384 }

/-- The scenario-A CPU as `Cpu::new` builds it (`pc = 0x1000`). -/
def cpuA : Cpu := Cpu.new memA

/-- The scenario-A CPU after the first fetch. -/
def cpuA1 : Cpu := { cpuA with pc := 0x1001 }

/-- The scenario-A CPU after the second fetch. -/
def cpuA2 : Cpu := { cpuA with pc := 0x1003 }

/-- C4: over scenario A's memory the first `fetch` yields
`{SoftwareInterrupt, Implied, 7}` leaving `pc = 0x1001`, and the second
yields `{InclusiveOrWithAccumulator, Immediate 0x0a, 2}` leaving
`pc = 0x1003`. -/
theorem C4_scenarioA :
    cpuA.fetch = some (.ok
      ({ operation := .SoftwareInterrupt, addressing := .Implied, cycle_count := 7 }, cpuA1)) ∧
    cpuA1.pc = 0x1001 ∧
    cpuA1.fetch = some (.ok
      ({ operation := .InclusiveOrWithAccumulator, addressing := .Immediate 0x0a,
         cycle_count := 2 }, cpuA2)) ∧
    cpuA2.pc = 0x1003 := by
  have hg0 : memA.data.getD 0x1000 0 = 0x00 := by
    show ((((List.replicate 16384 0x00).set 0x1000 0x00).set 0x1001 0x09).set
      0x1002 0x0a).getD 0x1000 0 = 0x00
    rw [list_getD_set_ne 0x0a 0 _ 0x1002 0x1000 (by decide),
        list_getD_set_ne 0x09 0 _ 0x1001 0x1000 (by decide),
        list_getD_set_eq 0x00 0 _ 0x1000 (by rw [List.length_replicate]; decide)]
  have hg1 : memA.data.getD 0x1001 0 = 0x09 := by
    show ((((List.replicate 16384 0x00).set 0x1000 0x00).set 0x1001 0x09).set
      0x1002 0x0a).getD 0x1001 0 = 0x09
    rw [list_getD_set_ne 0x0a 0 _ 0x1002 0x1001 (by decide),
        list_getD_set_eq 0x09 0 _ 0x1001
          (by rw [List.length_set, List.length_replicate]; decide)]
  have hg2 : memA.data.getD 0x1002 0 = 0x0a := by
    show ((((List.replicate 16384 0x00).set 0x1000 0x00).set 0x1001 0x09).set
      0x1002 0x0a).getD 0x1002 0 = 0x0a
    rw [list_getD_set_eq 0x0a 0 _ 0x1002
      (by rw [List.length_set, List.length_set, List.length_replicate]; decide)]
  have hl0 : cpuA.memory.load 0x1000 = .ok 0x00 := by
    rw [Memory_load_ok cpuA.memory 0x1000 (by decide)]
    show Except.ok (memA.data.getD 0x1000 0) = _
    rw [hg0]
  have hl1 : cpuA1.memory.load 0x1001 = .ok 0x09 := by
    rw [Memory_load_ok cpuA1.memory 0x1001 (by decide)]
    show Except.ok (memA.data.getD 0x1001 0) = _
    rw [hg1]
  have hl2 : cpuA1.memory.load 0x1002 = .ok 0x0a := by
    rw [Memory_load_ok cpuA1.memory 0x1002 (by decide)]
    show Except.ok (memA.data.getD 0x1002 0) = _
    rw [hg2]
  refine ⟨?_, rfl, ?_, rfl⟩
  · unfold Cpu.fetch
    rw [show cpuA.pc = 0x1000 from rfl, hl0]
    dsimp only
    rw [show cpuA.fetch_decode 0x00 = some (.ok
      ({ operation := .SoftwareInterrupt, addressing := .Implied, cycle_count := 7 }, 1))
      from rfl]
    dsimp only
    rw [if_pos (by decide)]
    rfl
  · have hfd : cpuA1.fetch_decode 0x09 = some (.ok
        ({ operation := .InclusiveOrWithAccumulator, addressing := .Immediate 0x0a,
           cycle_count := 2 }, 2)) := by
      unfold Cpu.fetch_decode
      rw [show decode_table 0x09 = (.InclusiveOrWithAccumulator, .immediate, 2) from rfl]
      dsimp only [AddrSpec.operand, AddrSpec.build]
      rw [if_pos (by decide), show cpuA1.pc + 1 = 0x1002 from rfl, hl2]
    unfold Cpu.fetch
    rw [show cpuA1.pc = 0x1001 from rfl, hl1]
    dsimp only
    rw [hfd]
    dsimp only
    rw [if_pos (by decide)]
    rfl

/-- A two-byte memory for little-endian word reads. -/
def memPair : Memory := { data := [0x34, 0x12], size := 2 }

/-- A CPU over `memPair`. -/
def cpuPair : Cpu := Cpu.new memPair

/-- The seven addressing modes whose operand lives at a memory-resident
effective address (all modes except `Immediate`, `Implied`, `Indirect`). -/
def usesMemoryOperand : Addressing → Bool
  | .Absolute _ | .Zeropage _ | .IndexedAbsolute _ _ | .IndexedZeropage _ _
  | .PreindexedIndirect _ _ | .PostindexedIndirect _ _ | .RelativeAddress _ => true
  | .Immediate _ | .Implied | .Indirect _ => false

/-- C5: `get_operand` returns the payload for `Immediate`, fails with
`InvalidAddressModeDerefenced` for `Implied` and `Indirect`, and for every
memory-resident mode loads the resolved effective address, mapping a
bounds error into `CpuError.MemoryBoundsError`. -/
theorem C5_get_operand (c : Cpu) :
    (∀ v, c.get_operand (.Immediate v) = some (.ok v)) ∧
    c.get_operand .Implied = some (.error CpuError.InvalidAddressModeDerefenced) ∧
    (∀ w, c.get_operand (.Indirect w) =
      some (.error CpuError.InvalidAddressModeDerefenced)) ∧
    (∀ a, usesMemoryOperand a = true → ∀ addr v,
      c.get_effective_address a = some (.ok addr) → c.memory.load addr = .ok v →
      c.get_operand a = some (.ok v)) ∧
    (∀ a, usesMemoryOperand a = true → ∀ addr e,
      c.get_effective_address a = some (.ok addr) → c.memory.load addr = .error e →
      c.get_operand a = some (.error (CpuError.MemoryBoundsError e))) := by
  refine ⟨fun v => rfl, rfl, fun w => rfl, ?_, ?_⟩
  · intro a ha addr v h1 h2
    cases a <;> simp_all [Cpu.get_operand, usesMemoryOperand]
  · intro a ha addr e h1 h2
    cases a <;> simp_all [Cpu.get_operand, usesMemoryOperand]

/-- Witness for C5: each branch at a concrete machine — an in-bounds
zero-page operand and an out-of-bounds absolute operand over the one-byte
memory. -/
theorem C5_witness :
    cpu16k.get_operand (.Immediate 0x55) = some (.ok 0x55) ∧
    cpu16k.get_operand .Implied = some (.error CpuError.InvalidAddressModeDerefenced) ∧
    cpu16k.get_operand (.Indirect 0x1234) =
      some (.error CpuError.InvalidAddressModeDerefenced) ∧
    cpuUnit.get_operand (.Zeropage 0x00) = some (.ok 0x00) ∧
    cpuUnit.get_operand (.Absolute 0x0005) =
      some (.error (CpuError.MemoryBoundsError { value := 0x0005, min := 0, max := 0 })) := by
  obtain ⟨h1, h2, h3, _, _⟩ := C5_get_operand cpu16k
  obtain ⟨_, _, _, h4u, h5u⟩ := C5_get_operand cpuUnit
  exact ⟨h1 0x55, h2, h3 0x1234,
    h4u (.Zeropage 0x00) (by decide) 0 0 (by rfl) (by rfl),
    h5u (.Absolute 0x0005) (by decide) 0x0005 { value := 0x0005, min := 0, max := 0 }
      (by rfl) (by rfl)⟩

/-- C6 (amended): `load_little_endian_u16` composes the two in-bounds bytes
for `addr < 0xffff`; at `addr = 0xffff` it never succeeds — when `0xffff`
is itself out of bounds (`size <= 0xffff`) it returns that out-of-range
error, and over a full 64 KiB memory the `addr + 1` increment overflows
`u16` and the call panics instead of returning an error — so the second
read never wraps around to address 0. -/
theorem C6_load_little_endian_u16 :
    (∀ (c : Cpu) (addr lo hi : Nat), addr < 0xffff →
      c.memory.load addr = .ok lo → c.memory.load (addr + 1) = .ok hi →
      c.load_little_endian_u16 addr = some (.ok ((hi <<< 8) ||| lo))) ∧
    (∀ c : Cpu, c.memory.size ≤ 0xffff →
      c.load_little_endian_u16 0xffff =
        some (.error { value := 0xffff, min := 0, max := c.memory.size - 1 })) ∧
    (∀ c : Cpu, 0xffff < c.memory.size → c.load_little_endian_u16 0xffff = none) ∧
    (∀ (c : Cpu) (w : Nat), c.load_little_endian_u16 0xffff ≠ some (.ok w)) := by
  have p1 : ∀ (c : Cpu) (addr lo hi : Nat), addr < 0xffff →
      c.memory.load addr = .ok lo → c.memory.load (addr + 1) = .ok hi →
      c.load_little_endian_u16 addr = some (.ok ((hi <<< 8) ||| lo)) := by
    intro c addr lo hi h h1 h2
    unfold Cpu.load_little_endian_u16
    rw [h1]
    dsimp only
    rw [if_pos (by omega), h2]
  have p2 : ∀ c : Cpu, c.memory.size ≤ 0xffff →
      c.load_little_endian_u16 0xffff =
        some (.error { value := 0xffff, min := 0, max := c.memory.size - 1 }) := by
    intro c h
    unfold Cpu.load_little_endian_u16
    rw [Memory_load_error c.memory 0xffff (by omega)]
  have p3 : ∀ c : Cpu, 0xffff < c.memory.size →
      c.load_little_endian_u16 0xffff = none := by
    intro c h
    unfold Cpu.load_little_endian_u16
    rw [Memory_load_ok c.memory 0xffff (by omega)]
    dsimp only
    rw [if_neg (by decide)]
  refine ⟨p1, p2, p3, fun c w => ?_⟩
  by_cases h : c.memory.size ≤ 0xffff
  · rw [p2 c h]
    simp
  · rw [p3 c (by omega)]
    simp

/-- Counterexample to C6 as stated: over the full 64 KiB memory the call at
`0xffff` does not return an error value at all — it panics on the
`addr + 1` overflow (`none`), exactly as the crate's own
`panics_on_invalid_word_read` test asserts. -/
theorem C6_counterexample :
    cpuFull.memory.size = 65536 ∧
    cpuFull.load_little_endian_u16 0xffff = none ∧
    (∀ e, cpuFull.load_little_endian_u16 0xffff ≠ some (.error e)) := by
  have hn : cpuFull.load_little_endian_u16 0xffff = none := by
    unfold Cpu.load_little_endian_u16
    rw [Memory_load_ok cpuFull.memory 0xffff (by decide)]
    dsimp only
    rw [if_neg (by decide)]
  exact ⟨rfl, hn, fun e h => by rw [hn] at h; exact Option.noConfusion h⟩

/-- Witness for the amended C6: the word at 0 over a two-byte memory, the
error at `0xffff` over the same memory, and the panic at `0xffff` over the
full 64 KiB memory. -/
theorem C6_witness :
    cpuPair.load_little_endian_u16 0 = some (.ok ((0x12 <<< 8) ||| 0x34)) ∧
    cpuPair.load_little_endian_u16 0xffff =
      some (.error { value := 0xffff, min := 0, max := cpuPair.memory.size - 1 }) ∧
    cpuFull.load_little_endian_u16 0xffff = none ∧
    cpuPair.load_little_endian_u16 0xffff ≠ some (.ok 0) := by
  obtain ⟨p1, p2, p3, p4⟩ := C6_load_little_endian_u16
  exact ⟨p1 cpuPair 0 0x34 0x12 (by decide) (by rfl) (by rfl),
    p2 cpuPair (by decide), p3 cpuFull (by decide), p4 cpuPair 0⟩

/-- C7: over any memory larger than `0xfffd`, `reset` succeeds and sets
`pc` to the little-endian word at `0xfffc`/`0xfffd`, `sp = 0xff`,
`a = x = sr = 0` and `cycles_busy = 1` (`y` and the memory unchanged). -/
theorem C7_reset (c : Cpu) (h : 0xfffd < c.memory.size) :
    c.reset = some { c with
      sp := 0xff,
      pc := (c.memory.data.getD 0xfffd 0 <<< 8) ||| c.memory.data.getD 0xfffc 0,
      a := 0, x := 0, sr := 0, cycles_busy := 1 } := by
  have hlle : c.load_little_endian_u16 0xfffc =
      some (.ok ((c.memory.data.getD 0xfffd 0 <<< 8) ||| c.memory.data.getD 0xfffc 0)) := by
    unfold Cpu.load_little_endian_u16
    rw [Memory_load_ok c.memory 0xfffc (by omega)]
    dsimp only
    rw [if_pos (by decide), Memory_load_ok c.memory (0xfffc + 1) (by omega)]
  unfold Cpu.reset
  rw [hlle]

/-- Witness for C7 at the full 64 KiB machine. -/
theorem C7_witness :
    cpuFull.reset = some { cpuFull with
      sp := 0xff,
      pc := (cpuFull.memory.data.getD 0xfffd 0 <<< 8) |||
        cpuFull.memory.data.getD 0xfffc 0,
      a := 0, x := 0, sr := 0, cycles_busy := 1 } :=
  C7_reset cpuFull (by decide)

/-- C8: when the memory ends at or before `0xfffd`, the reset vector read
fails with an out-of-range error and `reset` aborts (the source's
`.expect` panics on that error; `reset` returns no error value to its
caller). -/
theorem C8_reset_fails (c : Cpu) (h : c.memory.size ≤ 0xfffd) :
    c.reset = none ∧ ∃ e, c.load_little_endian_u16 0xfffc = some (.error e) := by
  obtain ⟨e, he⟩ : ∃ e, c.load_little_endian_u16 0xfffc = some (.error e) := by
    by_cases h1 : 0xfffc < c.memory.size
    · refine ⟨{ value := 0xfffc + 1, min := 0, max := c.memory.size - 1 }, ?_⟩
      unfold Cpu.load_little_endian_u16
      rw [Memory_load_ok c.memory 0xfffc h1]
      dsimp only
      rw [if_pos (by decide), Memory_load_error c.memory (0xfffc + 1) (by omega)]
    · refine ⟨{ value := 0xfffc, min := 0, max := c.memory.size - 1 }, ?_⟩
      unfold Cpu.load_little_endian_u16
      rw [Memory_load_error c.memory 0xfffc (by omega)]
  refine ⟨?_, ⟨e, he⟩⟩
  unfold Cpu.reset
  rw [he]

/-- Counterexample to C8 as stated: over the 16 KiB memory `reset` yields
no value at all (`none`, the `expect` abort) — in particular no error value
is handed to `reset`'s caller, whose signature has no error channel. -/
theorem C8_counterexample :
    cpu16k.memory.size ≤ 0xfffd ∧
    cpu16k.reset = none ∧
    (∀ c' : Cpu, cpu16k.reset ≠ some c') := by
  have hn : cpu16k.reset = none := by rfl
  exact ⟨by decide, hn, fun c' h => by rw [hn] at h; exact Option.noConfusion h⟩

/-- Witness for the amended C8 at the 16 KiB machine. -/
theorem C8_witness :
    cpu16k.reset = none ∧
    ∃ e, cpu16k.load_little_endian_u16 0xfffc = some (.error e) :=
  C8_reset_fails cpu16k (by decide)

/-- C9: `Memory::new` succeeds exactly on `13824 <= size <= 65536`,
allocating `size` zero bytes (every in-bounds address loads `0`), and
otherwise fails with the out-of-range error over that window. -/
theorem C9_memory_new (size : Nat) :
    (13824 ≤ size → size ≤ 65536 →
      Memory.new size = .ok { data := List.replicate size 0x00, size := size } ∧
      ∀ addr, addr < size →
        ({ data := List.replicate size 0x00, size := size } : Memory).load addr = .ok 0) ∧
    (size < 13824 ∨ 65536 < size →
      Memory.new size = .error { value := size, min := 13824, max := 65536 }) := by
  constructor
  · intro h1 h2
    constructor
    · unfold Memory.new
      rw [if_pos ⟨h1, by omega⟩]
    · intro addr ha
      rw [Memory_load_ok _ addr ha]
      rw [list_getD_replicate 0x00 0 size addr ha]
  · intro h
    unfold Memory.new
    rw [if_neg (by omega)]

/-- Witness for C9 at both boundary values and both out-of-range
neighbours. -/
theorem C9_witness :
    Memory.new 13824 = .ok { data := List.replicate 13824 0x00, size := 13824 } ∧
    ({ data := List.replicate 13824 0x00, size := 13824 } : Memory).load 0 = .ok 0 ∧
    Memory.new 65536 = .ok { data := List.replicate 65536 0x00, size := 65536 } ∧
    Memory.new 13823 = .error { value := 13823, min := 13824, max := 65536 } ∧
    Memory.new 65537 = .error { value := 65537, min := 13824, max := 65536 } :=
  ⟨((C9_memory_new 13824).1 (by decide) (by decide)).1,
    ((C9_memory_new 13824).1 (by decide) (by decide)).2 0 (by decide),
    ((C9_memory_new 65536).1 (by decide) (by decide)).1,
    (C9_memory_new 13823).2 (Or.inl (by decide)),
    (C9_memory_new 65537).2 (Or.inr (by decide))⟩

/-- A minimum-size memory as `Memory::new 13824` allocates it, then
mutated by two `store`s: byte `0xff` at addresses `0x00` and `0x01`
(so the zero-page word at `0x00` is `0xffff`). -/
def memFF : Memory :=
  { data := ((List.replicate 13824 0x00).set 0x00 0xff).set 0x01 0xff,
    size := 13824 }

/-- A CPU over `memFF`. -/
def cpuFF : Cpu := Cpu.new memFF

/-- C10 (amended): over any memory with the size invariant `Memory::new`
establishes (`13824 <= size`, preserved by `store`), the zero-page word
read of `PostindexedIndirect(n, off)` is always in bounds (addresses `n`
and `n + 1`, both at most `0x100`), so the internal `unwrap` never
panics and the word `w` is always obtained; the effective address is
`Ok (w + off)` exactly when the 16-bit sum does not overflow — when it
does, the subsequent `u16` addition (`cpu.rs` line 78) panics. -/
theorem C10_postindexed_zeropage (c : Cpu) (n off : Nat)
    (hsize : 13824 ≤ c.memory.size) (hn : n < 256) :
    c.load_little_endian_u16 (0x0000 ||| n) =
      some (.ok ((c.memory.data.getD (n + 1) 0 <<< 8) ||| c.memory.data.getD n 0)) ∧
    (∀ w, c.load_little_endian_u16 (0x0000 ||| n) = some (.ok w) →
      (w + off ≤ 0xffff →
        c.get_effective_address (.PostindexedIndirect n off) = some (.ok (w + off))) ∧
      (0xffff < w + off →
        c.get_effective_address (.PostindexedIndirect n off) = none)) := by
  have hlle : c.load_little_endian_u16 (0x0000 ||| n) =
      some (.ok ((c.memory.data.getD (n + 1) 0 <<< 8) ||| c.memory.data.getD n 0)) := by
    rw [Nat.zero_or]
    unfold Cpu.load_little_endian_u16
    rw [Memory_load_ok c.memory n (by omega)]
    dsimp only
    rw [if_pos (by omega), Memory_load_ok c.memory (n + 1) (by omega)]
  refine ⟨hlle, fun w hw => ⟨fun hle => ?_, fun hgt => ?_⟩⟩
  · unfold Cpu.get_effective_address
    dsimp only
    rw [hw]
    dsimp only
    rw [if_pos hle]
  · unfold Cpu.get_effective_address
    dsimp only
    rw [hw]
    dsimp only
    rw [if_neg (by omega)]

/-- Counterexample to C10 as stated: `memFF` is built by `Memory::new`
and two `store`s, its zero-page word at `0x00` is `0xffff` (read
successfully — the unwrap is not reached), yet
`PostindexedIndirect(0x00, 0x01)` returns no effective address at all:
`base_addr + offset` overflows `u16` and panics instead of returning
`Ok` of the word plus the offset. -/
theorem C10_counterexample :
    (do
      let m0 ← Memory.new 13824
      let m1 ← m0.store 0x00 0xff
      m1.store 0x01 0xff) = Except.ok memFF ∧
    cpuFF.load_little_endian_u16 (0x0000 ||| 0x00) = some (.ok 0xffff) ∧
    cpuFF.get_effective_address (.PostindexedIndirect 0x00 0x01) = none :=
  ⟨rfl, rfl, rfl⟩

/-- Witness for the amended C10 at the fresh 16 KiB machine,
`n = 0xff`, `off = 0x07`: the zero-page word (0) is read and the
effective address is `Ok (0 + 0x07)`. -/
theorem C10_witness :
    cpu16k.load_little_endian_u16 (0x0000 ||| 0xff) = some (.ok 0) ∧
    cpu16k.get_effective_address (.PostindexedIndirect 0xff 0x07) =
      some (.ok (0 + 0x07)) := by
  obtain ⟨h1, h2⟩ :=
    C10_postindexed_zeropage cpu16k 0xff 0x07 (by decide) (by decide)
  have hgd1 : cpu16k.memory.data.getD (0xff + 1) 0 = 0x00 := by
    show (List.replicate 16384 0x00).getD (0xff + 1) 0 = 0x00
    exact list_getD_replicate 0x00 0 16384 (0xff + 1) (by decide)
  have hgd2 : cpu16k.memory.data.getD 0xff 0 = 0x00 := by
    show (List.replicate 16384 0x00).getD 0xff 0 = 0x00
    exact list_getD_replicate 0x00 0 16384 0xff (by decide)
  have h0 : cpu16k.load_little_endian_u16 (0x0000 ||| 0xff) = some (.ok 0) := by
    rw [h1, hgd1, hgd2]
    rfl
  exact ⟨h0, (h2 0 h0).1 (by decide)⟩
